import Mathlib

/-!
Verification of the gluepdf session-scoped workflow engine.

The definitions below are a shallow embedding of the Go backend
(internal/session, internal/handlers, internal/server).  Sessions are the
mutable entities of `session.Session`; the artifact store (the uploads/output
directories) is modelled as the list of blob names currently on disk, and
`os.Remove` as filtering a name out of that list.  The opaque document
operations (`pdf.MergePDFs`, `pdf.RemoveBookmarks`, `pdf.SignPDF`) are
modelled by boolean outcome parameters, exactly as the spec treats them
(an opaque `transform` call).
-/

namespace GluePdf

/-- Transformation status of a session: the `MergeStatus` string field,
which only ever holds "idle", "in_progress" or "done". -/
inductive Status where
  | idle
  | inProgress
  | done
deriving DecidableEq, Repr

/-- The `session.Session` struct: id, ordered uploaded files, output file
reference ("" when unset, as in Go), creation time, and merge status.
The mutex is not data; lock-protected regions are modelled as atomic. -/
structure Session where
  id : String
  files : List String
  outputFile : String
  createdAt : Nat
  mergeStatus : Status
deriving DecidableEq, Repr

/-- The artifact store: the set of blob names currently existing on disk,
as a list of paths. -/
abbrev Store := List String

/-- Model of filepath.Join for the simple relative names this server and
session model produce. -/
def joinPath (dir file : String) : String := dir ++ "/" ++ file

/-- The handler's upload directory ("uploads" in NewServer). -/
def uploadDir : String := "uploads"

/-- The handler's output directory ("output" in NewServer). -/
def outputDir : String := "output"

/-- Model of os.Remove on the store: the blob no longer exists afterwards;
removal of an absent blob is a swallowed no-op, as in the Go code. -/
def removeBlob (st : Store) (b : String) : Store := st.filter (fun x => x ≠ b)

/-- SessionManager.CreateSession: a fresh session with a UUID id, no files,
"idle" status and no output. -/
def newSession (uuid : String) (now : Nat) : Session :=
  { id := uuid, files := [], outputFile := "", createdAt := now,
    mergeStatus := .idle }

/-- Session.AddFile: appends a file path to the session's list. -/
def addFile (s : Session) (fp : String) : Session :=
  { s with files := s.files ++ [fp] }

/-- Session.SetFiles: replaces the session's file list. -/
def setFiles (s : Session) (fs : List String) : Session :=
  { s with files := fs }

/-- Session.Cleanup: removes every file in Files from disk, then the
output file when one is set. -/
def cleanupSession (s : Session) (st : Store) : Store :=
  let st1 := s.files.foldl removeBlob st
  if s.outputFile ≠ "" then removeBlob st1 s.outputFile else st1

/-- Outcome of the UpdateOrder handler (after session lookup and JSON
decoding): 400 "Invalid file in order list", or the success response. -/
inductive OrderResult where
  | invalidFile
  | success
deriving DecidableEq, Repr

/-- The UpdateOrder handler body: every requested file must be one of the
session's current files; a non-empty request list replaces the file list,
an empty one is accepted with no change. -/
def updateOrder (s : Session) (order : List String) : OrderResult × Session :=
  if ∀ f ∈ order, f ∈ s.files then
    if order.length > 0 then (.success, setFiles s order)
    else (.success, s)
  else (.invalidFile, s)

/-- Outcome of the MergeFiles handler (after session lookup): the two 409
conflicts, 400 "No files to merge", 500 on either document operation, or
the success response carrying the new output path. -/
inductive MergeResult where
  | conflictInProgress
  | conflictDone
  | noFiles
  | mergeError
  | bookmarkError
  | ok (outputPath : String)
deriving DecidableEq, Repr

/-- Environment of one MergeFiles call: the generated UUID and the
outcomes of the opaque document operations.  `mergeDebris` records whether
a failing pdf.MergePDFs left a partially written file at the output path. -/
structure MergeEnv where
  uuid : String
  mergeOk : Bool
  mergeDebris : Bool
  bookmarksOk : Bool
deriving DecidableEq, Repr

/-- The output filename MergeFiles generates: "merged-<uuid>.pdf". -/
def mergedName (u : String) : String := "merged-" ++ u ++ ".pdf"

/-- The MergeFiles handler body, lock regions taken atomically:
check-and-set of the status, empty-file rejection, the two document
operations with rollback to idle on failure, and the commit of output and
"done" status on success.  No failure path removes the output path from
the store, and the success path does not remove a previous output. -/
def mergeFiles (env : MergeEnv) (s : Session) (st : Store) :
    MergeResult × Session × Store :=
  if s.mergeStatus = .inProgress then (.conflictInProgress, s, st)
  else if s.mergeStatus = .done then (.conflictDone, s, st)
  else
    let s1 : Session := { s with mergeStatus := .inProgress }
    if s1.files = [] then (.noFiles, { s1 with mergeStatus := .idle }, st)
    else
      let outputPath := joinPath outputDir (mergedName env.uuid)
      if env.mergeOk = false then
        (.mergeError, { s1 with mergeStatus := .idle },
          if env.mergeDebris then outputPath :: st else st)
      else
        let st1 := outputPath :: st
        if env.bookmarksOk = false then
          (.bookmarkError, { s1 with mergeStatus := .idle }, st1)
        else
          (.ok outputPath,
            { s1 with mergeStatus := .done, outputFile := outputPath }, st1)

/-- A decoded SignPDF request body.  The placement coordinates and scale
are opaque to the session logic; they are carried as integers here. -/
structure SignReq where
  sourcePdf : String
  signature : String
  page : Int
  x : Int
  y : Int
  scale : Int
deriving DecidableEq, Repr

/-- Outcome of the SignPDF handler (after session lookup and JSON
decoding): the 400/404 validation failures, 500 when the opaque signing
operation fails, or the success response carrying the new output path. -/
inductive SignResult where
  | missingFields
  | noPdfSpecified
  | sourceNotFound
  | signatureNotFound
  | signFailed
  | ok (outputPath : String)
deriving DecidableEq, Repr

/-- The output filename SignPDF generates: "signed-<uuid>.pdf". -/
def signedName (u : String) : String := "signed-" ++ u ++ ".pdf"

/-- The SignPDF handler body: field validation, ownership checks of the
source PDF and the signature image against the session's file list, the
opaque signing operation writing the new blob, then (under the session
lock) removal of the previous output blob and commit of the new output
reference.  The handler never reads or writes the merge status. -/
def signPDF (uuid : String) (signOk : Bool) (req : SignReq) (s : Session)
    (st : Store) : SignResult × Session × Store :=
  if req.signature = "" ∨ req.page < 1 then (.missingFields, s, st)
  else if req.sourcePdf = "" then (.noPdfSpecified, s, st)
  else
    let sourcePDFPath := joinPath uploadDir req.sourcePdf
    if sourcePDFPath ∉ s.files then (.sourceNotFound, s, st)
    else
      let sigPath := joinPath uploadDir req.signature
      if sigPath ∉ s.files then (.signatureNotFound, s, st)
      else
        let signedPath := joinPath outputDir (signedName uuid)
        if signOk = false then (.signFailed, s, st)
        else
          let st1 := signedPath :: st
          let st2 := if s.outputFile ≠ "" then removeBlob st1 s.outputFile
                     else st1
          (.ok signedPath, { s with outputFile := signedPath }, st2)

/-- Outcome of the DownloadFile handler. -/
inductive DownloadResult where
  | sessionNotFound
  | forbidden
  | fileNotFound
  | served (path : String)
deriving DecidableEq, Repr

/-- SessionManager.GetSession over the registry, modelled as lookup by id
in the list of live sessions. -/
def findSession (reg : List Session) (sid : String) : Option Session :=
  reg.find? (fun s => s.id = sid)

/-- The DownloadFile handler body: 404 when the session is absent, 403
when the requested path is not the session's current output, 404 when the
blob does not exist, and the served file otherwise. -/
def downloadFile (reg : List Session) (st : Store) (sid filename : String) :
    DownloadResult :=
  match findSession reg sid with
  | none => .sessionNotFound
  | some s =>
    let fp := joinPath outputDir filename
    if s.outputFile ≠ fp then .forbidden
    else if fp ∉ st then .fileNotFound
    else .served fp

/-- Whether a session's age exceeds the reaper's TTL at time `now`
(time.Since(CreatedAt) > 5*time.Minute in NewServer). -/
def expired (now ttl : Nat) (s : Session) : Bool := ttl < now - s.createdAt

/-- One tick of the cleanup goroutine in NewServer: for every session
older than the TTL, release its blobs via Session.Cleanup and delete it
from the registry. -/
def reaperTick (now ttl : Nat) (reg : List Session) (st : Store) :
    List Session × Store :=
  (reg.filter (fun s => ¬ expired now ttl s),
   reg.foldl (fun acc s => if expired now ttl s then cleanupSession s acc
                           else acc) st)

/-- Result one racing MergeFiles request observes at the lock-protected
check-and-set (pdf.go lines 220-232). -/
inductive AcquireResult where
  | proceed
  | conflictInProgress
  | conflictDone
deriving DecidableEq, Repr

/-- The lock-protected check-and-set at the top of MergeFiles, as one
atomic action on the status: in_progress and done are rejected with 409,
otherwise the status becomes in_progress and the request proceeds. -/
def mergeAcquire (st : Status) : AcquireResult × Status :=
  match st with
  | .inProgress => (.conflictInProgress, .inProgress)
  | .done => (.conflictDone, .done)
  | .idle => (.proceed, .inProgress)

/-- Results observed by `n` MergeFiles requests racing on one session:
the mutex serializes their check-and-set sections, so any concurrent
execution is some sequence of `mergeAcquire` actions. -/
def acquireSeq : Status → Nat → List AcquireResult
  | _, 0 => []
  | st, n + 1 =>
    let r := mergeAcquire st
    r.1 :: acquireSeq r.2 n

/-- One atomic lock-protected action on a single session, as performed by
the handlers: the merge check-and-set (from idle), the rollback to idle on
any merge failure path, the commit of output and done status in one
critical section, the sign handler's output commit (which never touches
the status), and the file-list mutations AddFile and SetFiles (the latter
only ever called with a non-empty list by UpdateOrder). -/
inductive SessionStep : Session → Session → Prop where
  | acquire (s : Session) : s.mergeStatus = .idle →
      SessionStep s { s with mergeStatus := .inProgress }
  | rollback (s : Session) : s.mergeStatus = .inProgress →
      SessionStep s { s with mergeStatus := .idle }
  | commitMerge (s : Session) (u : String) : s.mergeStatus = .inProgress →
      SessionStep s { s with mergeStatus := .done,
                             outputFile := joinPath outputDir (mergedName u) }
  | commitSign (s : Session) (u : String) :
      SessionStep s { s with outputFile := joinPath outputDir (signedName u) }
  | addFileStep (s : Session) (f : String) : SessionStep s (addFile s f)
  | setFilesStep (s : Session) (fs : List String) : fs ≠ [] →
      SessionStep s (setFiles s fs)

/-- A session state reachable from creation through the handlers' atomic
critical sections. -/
def ReachableSession (s : Session) : Prop :=
  ∃ u now, Relation.ReflTransGen SessionStep (newSession u now) s

/-! Helper lemmas shared by several claims. -/

theorem mem_removeBlob {x b : String} {st : Store} :
    x ∈ removeBlob st b ↔ x ∈ st ∧ x ≠ b := by
  simp [removeBlob]

theorem joinPath_ne_empty (d f : String) : joinPath d f ≠ "" := by
  intro h
  have hlen := congrArg String.length h
  simp [joinPath, String.length_append] at hlen
  exact absurd hlen.1.2 (by decide)

theorem acquireSeq_inProgress (n : Nat) :
    acquireSeq Status.inProgress n =
      List.replicate n AcquireResult.conflictInProgress := by
  induction n with
  | zero => rfl
  | succ n ih => simp [acquireSeq, mergeAcquire, ih, List.replicate_succ]

/-- C1: racing merge requests on one session are serialized by the
session mutex; starting from idle, the first check-and-set observes idle
and proceeds to in_progress, and every further overlapping request is
rejected with the "already in progress" conflict — never do two proceed. -/
theorem merge_acquire_exclusive (n : Nat) :
    acquireSeq Status.idle (n + 1) =
      AcquireResult.proceed ::
        List.replicate n AcquireResult.conflictInProgress ∧
    (acquireSeq Status.idle (n + 1)).count AcquireResult.proceed = 1 := by
  have h : acquireSeq Status.idle (n + 1) =
      AcquireResult.proceed ::
        List.replicate n AcquireResult.conflictInProgress := by
    simp [acquireSeq, mergeAcquire, acquireSeq_inProgress]
  refine ⟨h, ?_⟩
  rw [h]
  simp [List.count_cons, List.count_replicate]

/-- C4: when the merge itself or the bookmark-removal post-step fails,
the session is rolled back to idle and its output reference is unchanged
from before the attempt. -/
theorem merge_failure_rollback (env : MergeEnv) (s : Session) (st : Store)
    (h : (mergeFiles env s st).1 = .mergeError ∨
         (mergeFiles env s st).1 = .bookmarkError) :
    (mergeFiles env s st).2.1.mergeStatus = .idle ∧
    (mergeFiles env s st).2.1.outputFile = s.outputFile := by
  simp only [mergeFiles] at h ⊢
  split_ifs at h ⊢ <;> simp_all

theorem merge_failure_rollback_witness :
    ((mergeFiles ⟨"u1", false, false, true⟩
        { id := "s1", files := ["uploads/a.pdf"], outputFile := "output/o.pdf",
          createdAt := 0, mergeStatus := .idle } []).2.1.mergeStatus = .idle ∧
     (mergeFiles ⟨"u1", false, false, true⟩
        { id := "s1", files := ["uploads/a.pdf"], outputFile := "output/o.pdf",
          createdAt := 0, mergeStatus := .idle } []).2.1.outputFile =
       "output/o.pdf") :=
  merge_failure_rollback _ _ _ (Or.inl (by decide))

/-- C9: a merge request on an idle session with zero artifacts is
rejected with the "No files to merge" error — not either conflict — and
the session's status is idle afterwards, with the store untouched. -/
theorem merge_no_files_rejected (env : MergeEnv) (s : Session) (st : Store)
    (hidle : s.mergeStatus = .idle) (hfiles : s.files = []) :
    (mergeFiles env s st).1 = .noFiles ∧
    (mergeFiles env s st).1 ≠ .conflictInProgress ∧
    (mergeFiles env s st).1 ≠ .conflictDone ∧
    (mergeFiles env s st).2.1.mergeStatus = .idle ∧
    (mergeFiles env s st).2.2 = st := by
  simp [mergeFiles, hidle, hfiles]

theorem merge_no_files_rejected_witness :
    ((mergeFiles ⟨"u1", true, false, true⟩
        { id := "s1", files := [], outputFile := "", createdAt := 0,
          mergeStatus := .idle } ["uploads/x.pdf"]).1 = .noFiles ∧
     (mergeFiles ⟨"u1", true, false, true⟩
        { id := "s1", files := [], outputFile := "", createdAt := 0,
          mergeStatus := .idle } ["uploads/x.pdf"]).1 ≠ .conflictInProgress ∧
     (mergeFiles ⟨"u1", true, false, true⟩
        { id := "s1", files := [], outputFile := "", createdAt := 0,
          mergeStatus := .idle } ["uploads/x.pdf"]).1 ≠ .conflictDone ∧
     (mergeFiles ⟨"u1", true, false, true⟩
        { id := "s1", files := [], outputFile := "", createdAt := 0,
          mergeStatus := .idle } ["uploads/x.pdf"]).2.1.mergeStatus = .idle ∧
     (mergeFiles ⟨"u1", true, false, true⟩
        { id := "s1", files := [], outputFile := "", createdAt := 0,
          mergeStatus := .idle } ["uploads/x.pdf"]).2.2 = ["uploads/x.pdf"]) :=
  merge_no_files_rejected _ _ _ rfl rfl

/-- C10: setOrder is membership-only replacement: any request list whose
elements all occur in the current artifact list is accepted; a non-empty
list becomes the new artifact list verbatim (so strict subsets drop
artifacts and duplicates are admitted), and an empty list reports success
while leaving the artifact list unchanged. -/
theorem updateOrder_membership (s : Session) (L : List String)
    (h : ∀ f ∈ L, f ∈ s.files) :
    (updateOrder s L).1 = .success ∧
    (updateOrder s L).2.files = (if L = [] then s.files else L) := by
  rcases L with _ | ⟨a, L⟩ <;> simp_all [updateOrder, setFiles]

theorem updateOrder_membership_witness :
    ((updateOrder
        { id := "s1", files := ["a", "b", "c"], outputFile := "",
          createdAt := 0, mergeStatus := .idle } ["a", "a"]).1 = .success ∧
     (updateOrder
        { id := "s1", files := ["a", "b", "c"], outputFile := "",
          createdAt := 0, mergeStatus := .idle } ["a", "a"]).2.files =
       (if (["a", "a"] : List String) = [] then ["a", "b", "c"]
        else ["a", "a"])) :=
  updateOrder_membership _ _ (by decide)

/-- C2 counterexample: a sign request on a session whose status is
in_progress is not rejected with a conflict — it proceeds through the
underlying signing operation and succeeds, refuting the claim that every
transformation kind is rejected while the session is running. -/
theorem sign_while_running_proceeds :
    ({ id := "s1", files := ["uploads/a.pdf", "uploads/sig.png"],
       outputFile := "", createdAt := 0,
       mergeStatus := .inProgress } : Session).mergeStatus = .inProgress ∧
    (signPDF "u1" true ⟨"a.pdf", "sig.png", 1, 0, 0, 1⟩
       { id := "s1", files := ["uploads/a.pdf", "uploads/sig.png"],
         outputFile := "", createdAt := 0,
         mergeStatus := .inProgress } []).1 = .ok "output/signed-u1.pdf" := by
  decide

/-- C2 amended: only the merge transformation performs the status check:
a merge requested while running is rejected with the "already in
progress" conflict and one requested while done with the "already
completed" conflict, in both cases leaving session and store untouched;
the sign handler performs no status check at all, so its outcome is
independent of the session's status. -/
theorem merge_conflicts_sign_unchecked (env : MergeEnv) (s : Session)
    (st st2 : Store) (u : String) (ok : Bool) (req : SignReq) :
    (s.mergeStatus = .inProgress →
      mergeFiles env s st = (.conflictInProgress, s, st)) ∧
    (s.mergeStatus = .done →
      mergeFiles env s st = (.conflictDone, s, st)) ∧
    (signPDF u ok req s st2).1 =
      (signPDF u ok req { s with mergeStatus := .idle } st2).1 := by
  refine ⟨fun h => by simp [mergeFiles, h], fun h => by simp [mergeFiles, h],
    ?_⟩
  simp only [signPDF]
  split_ifs <;> rfl

theorem merge_conflicts_sign_unchecked_witness :
    mergeFiles ⟨"u1", true, false, true⟩
      ({ id := "s1", files := ["uploads/a.pdf"], outputFile := "",
         createdAt := 0, mergeStatus := .inProgress } : Session) [] =
      (.conflictInProgress,
       { id := "s1", files := ["uploads/a.pdf"], outputFile := "",
         createdAt := 0, mergeStatus := .inProgress }, []) ∧
    mergeFiles ⟨"u1", true, false, true⟩
      ({ id := "s2", files := ["uploads/a.pdf"],
         outputFile := "output/o.pdf", createdAt := 0,
         mergeStatus := .done } : Session) [] =
      (.conflictDone,
       { id := "s2", files := ["uploads/a.pdf"],
         outputFile := "output/o.pdf", createdAt := 0,
         mergeStatus := .done }, []) :=
  ⟨(merge_conflicts_sign_unchecked ⟨"u1", true, false, true⟩ _ [] [] "u" true
      ⟨"", "", 0, 0, 0, 0⟩).1 rfl,
   (merge_conflicts_sign_unchecked ⟨"u1", true, false, true⟩ _ [] [] "u" true
      ⟨"", "", 0, 0, 0, 0⟩).2.1 rfl⟩

/-- C3 counterexample: a successful merge on a session that already has
an output reference overwrites the reference but never releases the prior
backing blob — the old blob is still in the store afterwards, refuting the
claim that every successful transformation releases the prior output. -/
theorem merge_keeps_prior_output :
    ({ id := "s1", files := ["uploads/a.pdf"],
       outputFile := "output/old.pdf", createdAt := 0,
       mergeStatus := .idle } : Session).outputFile = "output/old.pdf" ∧
    (mergeFiles ⟨"m1", true, false, true⟩
       { id := "s1", files := ["uploads/a.pdf"],
         outputFile := "output/old.pdf", createdAt := 0,
         mergeStatus := .idle }
       ["output/old.pdf", "uploads/a.pdf"]).1 = .ok "output/merged-m1.pdf" ∧
    "output/old.pdf" ∈
      (mergeFiles ⟨"m1", true, false, true⟩
        { id := "s1", files := ["uploads/a.pdf"],
          outputFile := "output/old.pdf", createdAt := 0,
          mergeStatus := .idle }
        ["output/old.pdf", "uploads/a.pdf"]).2.2 := by
  decide

/-- C3 amended: each successful transformation overwrites the session's
output reference, but only the sign handler releases the prior backing
blob (and it does so only after the new blob is already written: the new
blob is in the store at release time); a successful merge only adds its
new blob and leaves any prior output blob in the store. -/
theorem output_commit_release (env : MergeEnv) (s : Session) (st : Store)
    (u : String) (req : SignReq)
    (hidle : s.mergeStatus = .idle) (hf : s.files ≠ [])
    (hm : env.mergeOk = true) (hb : env.bookmarksOk = true)
    (hsig : req.signature ≠ "") (hpage : 1 ≤ req.page)
    (hsrc : req.sourcePdf ≠ "")
    (hsrcMem : joinPath uploadDir req.sourcePdf ∈ s.files)
    (hsigMem : joinPath uploadDir req.signature ∈ s.files)
    (hout : s.outputFile ≠ "")
    (hne : s.outputFile ≠ joinPath outputDir (signedName u)) :
    ((mergeFiles env s st).1 =
        .ok (joinPath outputDir (mergedName env.uuid)) ∧
     (mergeFiles env s st).2.1.outputFile =
        joinPath outputDir (mergedName env.uuid) ∧
     (mergeFiles env s st).2.1.mergeStatus = .done ∧
     (mergeFiles env s st).2.2 =
        joinPath outputDir (mergedName env.uuid) :: st) ∧
    ((signPDF u true req s st).1 =
        .ok (joinPath outputDir (signedName u)) ∧
     (signPDF u true req s st).2.1.outputFile =
        joinPath outputDir (signedName u) ∧
     joinPath outputDir (signedName u) ∈ (signPDF u true req s st).2.2 ∧
     s.outputFile ∉ (signPDF u true req s st).2.2) := by
  have hnp : ¬ req.page < 1 := not_lt.mpr hpage
  constructor
  · simp [mergeFiles, hidle, hf, hm, hb]
  · simp [signPDF, hsig, hnp, hsrc, hsrcMem, hsigMem, hout, mem_removeBlob,
      Ne.symm hne]

theorem output_commit_release_witness :
    ((mergeFiles ⟨"m1", true, false, true⟩
        ({ id := "s1", files := ["uploads/a.pdf", "uploads/sig.png"],
           outputFile := "output/old.pdf", createdAt := 0,
           mergeStatus := .idle } : Session) ["output/old.pdf"]).1 =
        .ok (joinPath outputDir (mergedName "m1")) ∧
     (mergeFiles ⟨"m1", true, false, true⟩
        { id := "s1", files := ["uploads/a.pdf", "uploads/sig.png"],
          outputFile := "output/old.pdf", createdAt := 0,
          mergeStatus := .idle } ["output/old.pdf"]).2.1.outputFile =
        joinPath outputDir (mergedName "m1") ∧
     (mergeFiles ⟨"m1", true, false, true⟩
        { id := "s1", files := ["uploads/a.pdf", "uploads/sig.png"],
          outputFile := "output/old.pdf", createdAt := 0,
          mergeStatus := .idle } ["output/old.pdf"]).2.1.mergeStatus =
        .done ∧
     (mergeFiles ⟨"m1", true, false, true⟩
        { id := "s1", files := ["uploads/a.pdf", "uploads/sig.png"],
          outputFile := "output/old.pdf", createdAt := 0,
          mergeStatus := .idle } ["output/old.pdf"]).2.2 =
        joinPath outputDir (mergedName "m1") :: ["output/old.pdf"]) ∧
    ((signPDF "u1" true ⟨"a.pdf", "sig.png", 1, 0, 0, 1⟩
        { id := "s1", files := ["uploads/a.pdf", "uploads/sig.png"],
          outputFile := "output/old.pdf", createdAt := 0,
          mergeStatus := .idle } ["output/old.pdf"]).1 =
        .ok (joinPath outputDir (signedName "u1")) ∧
     (signPDF "u1" true ⟨"a.pdf", "sig.png", 1, 0, 0, 1⟩
        { id := "s1", files := ["uploads/a.pdf", "uploads/sig.png"],
          outputFile := "output/old.pdf", createdAt := 0,
          mergeStatus := .idle } ["output/old.pdf"]).2.1.outputFile =
        joinPath outputDir (signedName "u1") ∧
     joinPath outputDir (signedName "u1") ∈
       (signPDF "u1" true ⟨"a.pdf", "sig.png", 1, 0, 0, 1⟩
         { id := "s1", files := ["uploads/a.pdf", "uploads/sig.png"],
           outputFile := "output/old.pdf", createdAt := 0,
           mergeStatus := .idle } ["output/old.pdf"]).2.2 ∧
     ("output/old.pdf" : String) ∉
       (signPDF "u1" true ⟨"a.pdf", "sig.png", 1, 0, 0, 1⟩
         { id := "s1", files := ["uploads/a.pdf", "uploads/sig.png"],
           outputFile := "output/old.pdf", createdAt := 0,
           mergeStatus := .idle } ["output/old.pdf"]).2.2) :=
  output_commit_release ⟨"m1", true, false, true⟩ _ _ "u1"
    ⟨"a.pdf", "sig.png", 1, 0, 0, 1⟩ rfl (by decide) rfl rfl (by decide)
    (by decide) (by decide) (by decide) (by decide) (by decide) (by decide)

/-- C5 counterexample: a merge whose underlying operation fails after
partially writing the output blob surfaces the error with the blob still
in the store — no failure path releases it, refuting the claim that the
partially-written blob is released before the error is surfaced. -/
theorem merge_failure_leaves_blob :
    (mergeFiles ⟨"m1", false, true, true⟩
       { id := "s1", files := ["uploads/a.pdf"], outputFile := "",
         createdAt := 0, mergeStatus := .idle } []).1 = .mergeError ∧
    "output/merged-m1.pdf" ∈
      (mergeFiles ⟨"m1", false, true, true⟩
        { id := "s1", files := ["uploads/a.pdf"], outputFile := "",
          createdAt := 0, mergeStatus := .idle } []).2.2 := by
  decide

/-- C5 amended: on a failed merge transformation the session transitions
back to idle and the error is surfaced, but the output blob at the fresh
output path is not released: whenever the failing operation left one (a
partial write of the merge, or the fully merged file when the
bookmark-removal step fails) it is still in the store afterwards. -/
theorem merge_failure_no_release (env : MergeEnv) (s : Session) (st : Store)
    (hidle : s.mergeStatus = .idle) (hf : s.files ≠ []) :
    (env.mergeOk = false → env.mergeDebris = true →
      (mergeFiles env s st).1 = .mergeError ∧
      (mergeFiles env s st).2.1.mergeStatus = .idle ∧
      joinPath outputDir (mergedName env.uuid) ∈
        (mergeFiles env s st).2.2) ∧
    (env.mergeOk = true → env.bookmarksOk = false →
      (mergeFiles env s st).1 = .bookmarkError ∧
      (mergeFiles env s st).2.1.mergeStatus = .idle ∧
      joinPath outputDir (mergedName env.uuid) ∈
        (mergeFiles env s st).2.2) := by
  constructor
  · intro hm hd
    simp [mergeFiles, hidle, hf, hm, hd]
  · intro hm hb
    simp [mergeFiles, hidle, hf, hm, hb]

theorem merge_failure_no_release_witness :
    (mergeFiles ⟨"m1", false, true, true⟩
       ({ id := "s1", files := ["uploads/a.pdf"], outputFile := "",
          createdAt := 0, mergeStatus := .idle } : Session) []).1 =
      .mergeError ∧
    (mergeFiles ⟨"m1", false, true, true⟩
       { id := "s1", files := ["uploads/a.pdf"], outputFile := "",
         createdAt := 0, mergeStatus := .idle } []).2.1.mergeStatus =
      .idle ∧
    joinPath outputDir (mergedName "m1") ∈
      (mergeFiles ⟨"m1", false, true, true⟩
        { id := "s1", files := ["uploads/a.pdf"], outputFile := "",
          createdAt := 0, mergeStatus := .idle } []).2.2 :=
  (merge_failure_no_release ⟨"m1", false, true, true⟩ _ [] rfl
    (by decide)).1 rfl rfl

/-- C6: in every reachable session state, done status implies a non-empty
output reference — the output is committed in the same critical section
(one atomic step) that sets the status to done, so no observer sees done
with an unset output. -/
theorem done_implies_output (s : Session) (h : ReachableSession s)
    (hd : s.mergeStatus = .done) : s.outputFile ≠ "" := by
  obtain ⟨u, now, hsteps⟩ := h
  suffices hinv : s.mergeStatus = .done → s.outputFile ≠ "" from hinv hd
  clear hd
  induction hsteps with
  | refl => intro hd; simp [newSession] at hd
  | tail hab hbc ih =>
    cases hbc with
    | acquire ht => intro hd; simp at hd
    | rollback ht => intro hd; simp at hd
    | commitMerge v ht => intro hd; exact joinPath_ne_empty _ _
    | commitSign v =>
      intro hd
      exact joinPath_ne_empty _ _
    | addFileStep f => intro hd; exact ih hd
    | setFilesStep fs hfs => intro hd; exact ih hd

theorem done_implies_output_witness :
    ({ id := "u1", files := ["uploads/a.pdf"],
       outputFile := joinPath outputDir (mergedName "m1"), createdAt := 0,
       mergeStatus := .done } : Session).outputFile ≠ "" :=
  done_implies_output _
    ⟨"u1", 0,
      Relation.ReflTransGen.tail
        (Relation.ReflTransGen.tail
          (Relation.ReflTransGen.tail Relation.ReflTransGen.refl
            (SessionStep.addFileStep (newSession "u1" 0) "uploads/a.pdf"))
          (SessionStep.acquire _ rfl))
        (SessionStep.commitMerge _ "m1" rfl)⟩
    rfl

/-- C7: the download handler's case analysis — absent session gives 404,
a requested path differing from the session's current output gives 403
(not 404), a matching path whose blob is missing gives 404, and only a
matching path with an existing blob is served. -/
theorem downloadFile_cases (reg : List Session) (st : Store)
    (sid fn : String) :
    (findSession reg sid = none →
      downloadFile reg st sid fn = .sessionNotFound) ∧
    (∀ s, findSession reg sid = some s →
      s.outputFile ≠ joinPath outputDir fn →
      downloadFile reg st sid fn = .forbidden) ∧
    (∀ s, findSession reg sid = some s →
      s.outputFile = joinPath outputDir fn →
      joinPath outputDir fn ∉ st →
      downloadFile reg st sid fn = .fileNotFound) ∧
    (∀ s, findSession reg sid = some s →
      s.outputFile = joinPath outputDir fn →
      joinPath outputDir fn ∈ st →
      downloadFile reg st sid fn = .served (joinPath outputDir fn)) := by
  refine ⟨?_, ?_, ?_, ?_⟩
  · intro h; simp [downloadFile, h]
  · intro s hs hne; simp [downloadFile, hs, hne]
  · intro s hs heq hmem; simp [downloadFile, hs, heq, hmem]
  · intro s hs heq hmem; simp [downloadFile, hs, heq, hmem]

theorem downloadFile_cases_witness :
    downloadFile
      [{ id := "a", files := [], outputFile := "output/m.pdf",
         createdAt := 0, mergeStatus := .done }] ["output/m.pdf"]
      "a" "m.pdf" = .served (joinPath outputDir "m.pdf") ∧
    downloadFile
      [{ id := "a", files := [], outputFile := "output/m.pdf",
         createdAt := 0, mergeStatus := .done }] ["output/m.pdf"]
      "a" "x.pdf" = .forbidden ∧
    downloadFile
      [{ id := "a", files := [], outputFile := "output/m.pdf",
         createdAt := 0, mergeStatus := .done }] ["output/m.pdf"]
      "zzz" "m.pdf" = .sessionNotFound :=
  ⟨(downloadFile_cases _ _ _ _).2.2.2
      { id := "a", files := [], outputFile := "output/m.pdf",
        createdAt := 0, mergeStatus := .done } (by decide) (by decide)
      (by decide),
   (downloadFile_cases _ _ _ _).2.1
      { id := "a", files := [], outputFile := "output/m.pdf",
        createdAt := 0, mergeStatus := .done } (by decide) (by decide),
   (downloadFile_cases _ _ _ _).1 (by decide)⟩

/-! Helper lemmas for the eviction claim. -/

theorem removeBlob_subset {x b : String} {st : Store}
    (h : x ∈ removeBlob st b) : x ∈ st := (mem_removeBlob.mp h).1

theorem foldl_removeBlob_subset (l : List String) (st : Store) (x : String)
    (h : x ∈ l.foldl removeBlob st) : x ∈ st := by
  induction l generalizing st with
  | nil => simpa using h
  | cons a l ih =>
    rw [List.foldl_cons] at h
    exact removeBlob_subset (ih (removeBlob st a) h)

theorem foldl_removeBlob_not_mem {b : String} :
    ∀ (l : List String) (st : Store), b ∈ l → b ∉ l.foldl removeBlob st := by
  intro l
  induction l with
  | nil => intro st h; cases h
  | cons a l ih =>
    intro st h hc
    rw [List.foldl_cons] at hc
    rcases List.mem_cons.mp h with rfl | hmem
    · exact (mem_removeBlob.mp
        (foldl_removeBlob_subset l _ _ hc)).2 rfl
    · exact ih _ hmem hc

theorem cleanupSession_subset (s : Session) (st : Store) (x : String)
    (h : x ∈ cleanupSession s st) : x ∈ st := by
  unfold cleanupSession at h
  by_cases ho : s.outputFile ≠ ""
  · rw [if_pos ho] at h
    exact foldl_removeBlob_subset _ _ _ (removeBlob_subset h)
  · rw [if_neg ho] at h
    exact foldl_removeBlob_subset _ _ _ h

theorem not_mem_cleanupSession (s : Session) (st : Store) (b : String)
    (h : b ∈ s.files ∨ (b = s.outputFile ∧ b ≠ "")) :
    b ∉ cleanupSession s st := by
  unfold cleanupSession
  rcases h with hm | ⟨rfl, hne⟩
  · intro hc
    by_cases ho : s.outputFile ≠ ""
    · rw [if_pos ho] at hc
      exact foldl_removeBlob_not_mem s.files st hm (removeBlob_subset hc)
    · rw [if_neg ho] at hc
      exact foldl_removeBlob_not_mem s.files st hm hc
  · rw [if_pos hne]
    intro hc
    exact (mem_removeBlob.mp hc).2 rfl

theorem reapFold_subset (now ttl : Nat) (l : List Session) (st : Store)
    (x : String)
    (h : x ∈ l.foldl
      (fun acc s => if expired now ttl s then cleanupSession s acc
                    else acc) st) : x ∈ st := by
  induction l generalizing st with
  | nil => simpa using h
  | cons a l ih =>
    rw [List.foldl_cons] at h
    have hx := ih _ h
    by_cases he : expired now ttl a
    · rw [if_pos he] at hx
      exact cleanupSession_subset _ _ _ hx
    · rwa [if_neg he] at hx

theorem reapFold_removes (now ttl : Nat) (s : Session) (b : String)
    (hb : b ∈ s.files ∨ (b = s.outputFile ∧ b ≠ "")) :
    ∀ (l : List Session) (st : Store), s ∈ l →
      expired now ttl s = true →
      b ∉ l.foldl
        (fun acc t => if expired now ttl t then cleanupSession t acc
                      else acc) st := by
  intro l
  induction l with
  | nil => intro st h; cases h
  | cons a l ih =>
    intro st hmem hexp hc
    rw [List.foldl_cons] at hc
    rcases List.mem_cons.mp hmem with rfl | hmem2
    · rw [if_pos hexp] at hc
      exact not_mem_cleanupSession s st b hb (reapFold_subset now ttl l _ b hc)
    · exact ih _ hmem2 hexp hc

/-- C8: after a reaper tick, every session whose age exceeds the TTL is
unreachable by registry lookup, and every blob referenced by its file
list and its output reference (when set) has been removed from the store. -/
theorem reaperTick_evicts (now ttl : Nat) (reg : List Session) (st : Store)
    (s : Session) (hnodup : (reg.map Session.id).Nodup) (hs : s ∈ reg)
    (hexp : expired now ttl s = true) :
    findSession (reaperTick now ttl reg st).1 s.id = none ∧
    (∀ b ∈ s.files, b ∉ (reaperTick now ttl reg st).2) ∧
    (s.outputFile ≠ "" → s.outputFile ∉ (reaperTick now ttl reg st).2) := by
  refine ⟨?_, ?_, ?_⟩
  · apply List.find?_eq_none.mpr
    intro x hx
    simp only [reaperTick, List.mem_filter] at hx
    obtain ⟨hxreg, hxe⟩ := hx
    simp only [decide_eq_true_eq]
    intro hid
    have hxs : x = s := List.inj_on_of_nodup_map hnodup hxreg hs hid
    subst hxs
    simp [hexp] at hxe
  · intro b hb
    exact reapFold_removes now ttl s b (Or.inl hb) reg st hs hexp
  · intro ho
    exact reapFold_removes now ttl s _ (Or.inr ⟨rfl, ho⟩) reg st hs hexp

theorem reaperTick_evicts_witness :
    findSession
      (reaperTick 1000 300
        [{ id := "a", files := ["uploads/f.pdf"],
           outputFile := "output/o.pdf", createdAt := 0,
           mergeStatus := .idle }]
        ["uploads/f.pdf", "output/o.pdf"]).1 "a" = none ∧
    "uploads/f.pdf" ∉
      (reaperTick 1000 300
        [{ id := "a", files := ["uploads/f.pdf"],
           outputFile := "output/o.pdf", createdAt := 0,
           mergeStatus := .idle }]
        ["uploads/f.pdf", "output/o.pdf"]).2 ∧
    "output/o.pdf" ∉
      (reaperTick 1000 300
        [{ id := "a", files := ["uploads/f.pdf"],
           outputFile := "output/o.pdf", createdAt := 0,
           mergeStatus := .idle }]
        ["uploads/f.pdf", "output/o.pdf"]).2 :=
  ⟨(reaperTick_evicts 1000 300 _ _
      { id := "a", files := ["uploads/f.pdf"], outputFile := "output/o.pdf",
        createdAt := 0, mergeStatus := .idle }
      (by simp) (by simp) (by decide)).1,
   (reaperTick_evicts 1000 300 _ _
      { id := "a", files := ["uploads/f.pdf"], outputFile := "output/o.pdf",
        createdAt := 0, mergeStatus := .idle }
      (by simp) (by simp) (by decide)).2.1 "uploads/f.pdf" (by decide),
   (reaperTick_evicts 1000 300 _ _
      { id := "a", files := ["uploads/f.pdf"], outputFile := "output/o.pdf",
        createdAt := 0, mergeStatus := .idle }
      (by simp) (by simp) (by decide)).2.2 (by decide)⟩

end GluePdf
